import Mathlib

/-!
Verification of the segmentation and clip-assembly core of
`comprehensive_30sec_generator.py`.

Durations and timestamps are modelled as rationals (`ℚ`): the Python code
performs only additions, subtractions, comparisons and a few divisions on
them, and every constant involved is exactly representable, so rational
arithmetic mirrors the source faithfully for the properties proved here.

The `while` loop of `calculate_all_clip_segments` is translated as a
structurally recursive function: the loop guard `clip_count <
MAX_CLIPS_PER_VIDEO` is represented by a fuel argument that starts at
`MAX_CLIPS_PER_VIDEO - clip_count` (so initially `MAX_CLIPS_PER_VIDEO`,
since `clip_count` starts at 0); the loop body either breaks or increments
`clip_count` by one while consuming one unit of fuel, keeping
`clip_count + fuel = MAX_CLIPS_PER_VIDEO` invariant, hence the guard
`clip_count < MAX_CLIPS_PER_VIDEO` is exactly `fuel ≠ 0`.
-/

set_option maxRecDepth 40000

namespace ShortsGen

namespace Config

/-- Configuration constant `CLIP_DURATION = 30` from `class Config`. -/
def CLIP_DURATION : ℚ := 30

/-- Configuration constant `OVERLAP_DURATION = 5` from `class Config`. -/
def OVERLAP_DURATION : ℚ := 5

/-- Configuration constant `MIN_CLIP_DURATION = 25` from `class Config`. -/
def MIN_CLIP_DURATION : ℚ := 25

/-- Configuration constant `AUDIO_FADE_DURATION = 0.2` from `class Config`. -/
def AUDIO_FADE_DURATION : ℚ := 1/5

/-- Configuration constant `MAX_CLIPS_PER_VIDEO = 100` from `class Config`. -/
def MAX_CLIPS_PER_VIDEO : ℕ := 100

end Config

/-- A clip window, mirroring the segment dictionaries produced by
`calculate_all_clip_segments`. -/
structure Segment where
  start_time : ℚ
  end_time : ℚ
  duration : ℚ
  clip_number : ℕ
  is_final_clip : Bool
deriving DecidableEq, Repr

/-- Body of the `while` loop of `calculate_all_clip_segments`, generalized
over the configuration constants (the loop body reads them from `Config`
but does not otherwise depend on their values). `fuel` encodes
`maxClips - clip_count` as explained in the module header.  The source's
local names `end_time = start_time + CLIP_DURATION` and
`actual_duration = video_duration - start_time` are inlined. -/
def calcSegmentsAux (clipDuration overlapDuration minClipDuration videoDuration : ℚ) :
    ℚ → ℕ → ℕ → List Segment
  | _, _, 0 => []
  | start_time, clip_count, fuel + 1 =>
    if start_time < videoDuration then
      if start_time + clipDuration > videoDuration then
        if videoDuration - start_time ≥ minClipDuration then
          [{ start_time := start_time, end_time := videoDuration,
             duration := videoDuration - start_time, clip_number := clip_count + 1,
             is_final_clip := true }]
        else []
      else
        { start_time := start_time, end_time := start_time + clipDuration,
          duration := clipDuration, clip_number := clip_count + 1,
          is_final_clip := false } ::
        calcSegmentsAux clipDuration overlapDuration minClipDuration videoDuration
          (start_time + (clipDuration - overlapDuration)) (clip_count + 1) fuel
    else []

/-- The planner `calculate_all_clip_segments` with explicit planning
parameters; `start_time` and `clip_count` start at 0. -/
def plan_with_params (clipDuration overlapDuration minClipDuration : ℚ)
    (maxClips : ℕ) (video_duration : ℚ) : List Segment :=
  calcSegmentsAux clipDuration overlapDuration minClipDuration video_duration
    0 0 maxClips

/-- Method `ComprehensiveVideoProcessor.calculate_all_clip_segments`: the
planner as the source runs it, with the `Config` constants. -/
def calculate_all_clip_segments (video_duration : ℚ) : List Segment :=
  plan_with_params Config.CLIP_DURATION Config.OVERLAP_DURATION
    Config.MIN_CLIP_DURATION Config.MAX_CLIPS_PER_VIDEO video_duration

example : calculate_all_clip_segments 100 =
    [⟨0, 30, 30, 1, false⟩, ⟨25, 55, 30, 2, false⟩,
     ⟨50, 80, 30, 3, false⟩, ⟨75, 100, 25, 4, true⟩] := by
  norm_num [calculate_all_clip_segments, plan_with_params, calcSegmentsAux,
    Config.CLIP_DURATION, Config.OVERLAP_DURATION, Config.MIN_CLIP_DURATION,
    Config.MAX_CLIPS_PER_VIDEO]

example : calculate_all_clip_segments 40 = [⟨0, 30, 30, 1, false⟩] := by
  norm_num [calculate_all_clip_segments, plan_with_params, calcSegmentsAux,
    Config.CLIP_DURATION, Config.OVERLAP_DURATION, Config.MIN_CLIP_DURATION,
    Config.MAX_CLIPS_PER_VIDEO]

example : calculate_all_clip_segments 30 = [⟨0, 30, 30, 1, false⟩] := by
  norm_num [calculate_all_clip_segments, plan_with_params, calcSegmentsAux,
    Config.CLIP_DURATION, Config.OVERLAP_DURATION, Config.MIN_CLIP_DURATION,
    Config.MAX_CLIPS_PER_VIDEO]

example : calculate_all_clip_segments 0 = [] := by
  norm_num [calculate_all_clip_segments, plan_with_params, calcSegmentsAux,
    Config.CLIP_DURATION, Config.OVERLAP_DURATION, Config.MIN_CLIP_DURATION,
    Config.MAX_CLIPS_PER_VIDEO]

example : calculate_all_clip_segments 24 = [] := by
  norm_num [calculate_all_clip_segments, plan_with_params, calcSegmentsAux,
    Config.CLIP_DURATION, Config.OVERLAP_DURATION, Config.MIN_CLIP_DURATION,
    Config.MAX_CLIPS_PER_VIDEO]

/-- Invariant of every emitted segment: a non-final segment spans exactly
`clipDuration` and stays within the video; a final segment ends exactly at
the video's end, its duration is the truncated remainder, at least
`minClipDuration` and strictly below `clipDuration`. -/
theorem calcSegmentsAux_mem_spec (t o m d : ℚ) :
    ∀ (fuel : ℕ) (s : ℚ) (c : ℕ), ∀ seg ∈ calcSegmentsAux t o m d s c fuel,
      (seg.is_final_clip = false →
        seg.duration = t ∧ seg.end_time = seg.start_time + t ∧ seg.end_time ≤ d) ∧
      (seg.is_final_clip = true →
        seg.end_time = d ∧ m ≤ seg.duration ∧ seg.duration < t ∧
        seg.duration = d - seg.start_time) := by
  intro fuel
  induction fuel with
  | zero => intro s c seg h; simp [calcSegmentsAux] at h
  | succ fuel ih =>
    intro s c seg h
    simp only [calcSegmentsAux] at h
    split_ifs at h with h1 h2 h3
    · rw [List.mem_singleton] at h
      subst h
      refine ⟨by simp, fun _ => ⟨rfl, by simpa using h3, ?_, rfl⟩⟩
      simp only
      linarith
    · simp at h
    · rcases List.mem_cons.mp h with rfl | h4
      · refine ⟨fun _ => ⟨rfl, rfl, ?_⟩, by simp⟩
        simp only
        linarith [not_lt.mp h2]
      · exact ih _ _ seg h4
    · simp at h

/-- Every segment starts no earlier than the loop's current `start_time`,
provided the step `clipDuration - overlapDuration` is nonnegative. -/
theorem calcSegmentsAux_start_le (t o m d : ℚ) (hstep : 0 ≤ t - o) :
    ∀ (fuel : ℕ) (s : ℚ) (c : ℕ), ∀ seg ∈ calcSegmentsAux t o m d s c fuel,
      s ≤ seg.start_time := by
  intro fuel
  induction fuel with
  | zero => intro s c seg h; simp [calcSegmentsAux] at h
  | succ fuel ih =>
    intro s c seg h
    simp only [calcSegmentsAux] at h
    split_ifs at h with h1 h2 h3
    · rw [List.mem_singleton] at h
      subst h
      simp
    · simp at h
    · rcases List.mem_cons.mp h with rfl | h4
      · simp
      · have h5 := ih (s + (t - o)) (c + 1) seg h4
        linarith
    · simp at h

/-- Start times are strictly increasing along the plan when the step is
positive (as it is for the configured `30 - 5 = 25`). -/
theorem calcSegmentsAux_pairwise (t o m d : ℚ) (hstep : 0 < t - o) :
    ∀ (fuel : ℕ) (s : ℚ) (c : ℕ),
      (calcSegmentsAux t o m d s c fuel).Pairwise
        (fun a b => a.start_time < b.start_time) := by
  intro fuel
  induction fuel with
  | zero => intro s c; simp [calcSegmentsAux]
  | succ fuel ih =>
    intro s c
    simp only [calcSegmentsAux]
    split_ifs with h1 h2 h3
    · simp
    · simp
    · refine List.pairwise_cons.mpr ⟨?_, ih _ _⟩
      intro b hb
      have h4 := calcSegmentsAux_start_le t o m d (le_of_lt hstep) fuel
        (s + (t - o)) (c + 1) b hb
      simp only
      linarith
    · simp

/-- Clip numbers are the contiguous range starting at `clip_count + 1`. -/
theorem calcSegmentsAux_clip_numbers (t o m d : ℚ) :
    ∀ (fuel : ℕ) (s : ℚ) (c : ℕ),
      (calcSegmentsAux t o m d s c fuel).map Segment.clip_number =
        List.range' (c + 1) (calcSegmentsAux t o m d s c fuel).length := by
  intro fuel
  induction fuel with
  | zero => intro s c; simp [calcSegmentsAux]
  | succ fuel ih =>
    intro s c
    simp only [calcSegmentsAux]
    split_ifs with h1 h2 h3
    · simp [List.range']
    · simp
    · simp only [List.map_cons, List.length_cons, List.range'_succ, List.cons.injEq]
      exact ⟨trivial, ih _ _⟩
    · simp

/-- The loop emits at most `fuel` segments. -/
theorem calcSegmentsAux_length_le (t o m d : ℚ) :
    ∀ (fuel : ℕ) (s : ℚ) (c : ℕ), (calcSegmentsAux t o m d s c fuel).length ≤ fuel := by
  intro fuel
  induction fuel with
  | zero => intro s c; simp [calcSegmentsAux]
  | succ fuel ih =>
    intro s c
    simp only [calcSegmentsAux]
    split_ifs with h1 h2 h3
    · simp
    · simp
    · simpa using ih (s + (t - o)) (c + 1)
    · simp

/-- With a nonpositive step, a positive clip duration that fits in the
video, and a nonpositive current position, the loop never reaches the
truncation branch and exhausts its fuel (the `clip_count` safety bound). -/
theorem calcSegmentsAux_length_nonpos_step (t o m d : ℚ) (h1 : t ≤ o)
    (h2 : 0 < t) (h3 : t ≤ d) :
    ∀ (fuel : ℕ) (s : ℚ) (c : ℕ), s ≤ 0 →
      (calcSegmentsAux t o m d s c fuel).length = fuel := by
  intro fuel
  induction fuel with
  | zero => intro s c hs; simp [calcSegmentsAux]
  | succ fuel ih =>
    intro s c hs
    have hsd : s < d := by linarith
    have hend : ¬ s + t > d := by linarith
    simp only [calcSegmentsAux, if_pos hsd, if_neg hend, List.length_cons]
    rw [ih (s + (t - o)) (c + 1) (by linarith)]

/-- Claim C1: for every `total_duration ≥ 0` (with the configured
parameters), the plan has strictly increasing start times, every
`end_time` is at most `total_duration`, and the `clip_number` values form
the contiguous 1-based sequence `1..N`, the final window included. -/
theorem c1_plan_invariants (total_duration : ℚ) (hd : 0 ≤ total_duration) :
    (calculate_all_clip_segments total_duration).Pairwise
      (fun a b => a.start_time < b.start_time) ∧
    (∀ seg ∈ calculate_all_clip_segments total_duration,
      seg.end_time ≤ total_duration) ∧
    (calculate_all_clip_segments total_duration).map Segment.clip_number =
      List.range' 1 (calculate_all_clip_segments total_duration).length := by
  unfold calculate_all_clip_segments plan_with_params
  refine ⟨?_, ?_, ?_⟩
  · exact calcSegmentsAux_pairwise _ _ _ _
      (by norm_num [Config.CLIP_DURATION, Config.OVERLAP_DURATION]) _ _ _
  · intro seg h
    have h2 := calcSegmentsAux_mem_spec Config.CLIP_DURATION
      Config.OVERLAP_DURATION Config.MIN_CLIP_DURATION total_duration
      Config.MAX_CLIPS_PER_VIDEO 0 0 seg h
    cases hf : seg.is_final_clip with
    | false => exact (h2.1 hf).2.2
    | true => exact le_of_eq (h2.2 hf).1
  · simpa using calcSegmentsAux_clip_numbers Config.CLIP_DURATION
      Config.OVERLAP_DURATION Config.MIN_CLIP_DURATION total_duration
      Config.MAX_CLIPS_PER_VIDEO 0 0

/-- Witness for C1, instantiated at `total_duration = 100`. -/
theorem c1_witness :
    (0:ℚ) ≤ 100 ∧
    ((calculate_all_clip_segments 100).Pairwise
        (fun a b => a.start_time < b.start_time) ∧
      (∀ seg ∈ calculate_all_clip_segments 100, seg.end_time ≤ 100) ∧
      (calculate_all_clip_segments 100).map Segment.clip_number =
        List.range' 1 (calculate_all_clip_segments 100).length) :=
  ⟨by norm_num, c1_plan_invariants 100 (by norm_num)⟩

/-- Claim C2: every non-final window lasts exactly `CLIP_DURATION`
(30 s); a final window lasts at least `MIN_CLIP_DURATION` (25 s) and
strictly less than `CLIP_DURATION`. -/
theorem c2_window_durations (total_duration : ℚ) (hd : 0 ≤ total_duration) :
    ∀ seg ∈ calculate_all_clip_segments total_duration,
      (seg.is_final_clip = false → seg.duration = Config.CLIP_DURATION) ∧
      (seg.is_final_clip = true →
        Config.MIN_CLIP_DURATION ≤ seg.duration ∧
          seg.duration < Config.CLIP_DURATION) := by
  intro seg h
  unfold calculate_all_clip_segments plan_with_params at h
  have h2 := calcSegmentsAux_mem_spec Config.CLIP_DURATION
    Config.OVERLAP_DURATION Config.MIN_CLIP_DURATION total_duration
    Config.MAX_CLIPS_PER_VIDEO 0 0 seg h
  exact ⟨fun hf => (h2.1 hf).1, fun hf => ⟨(h2.2 hf).2.1, (h2.2 hf).2.2.1⟩⟩

/-- Witness for C2, instantiated at `total_duration = 100` on the final
truncated window `[75, 100)`. -/
theorem c2_witness :
    (0:ℚ) ≤ 100 ∧
    (⟨75, 100, 25, 4, true⟩ : Segment) ∈ calculate_all_clip_segments 100 ∧
    (Config.MIN_CLIP_DURATION ≤ (Segment.mk 75 100 25 4 true).duration ∧
      (Segment.mk 75 100 25 4 true).duration < Config.CLIP_DURATION) := by
  have hmem : (⟨75, 100, 25, 4, true⟩ : Segment) ∈ calculate_all_clip_segments 100 := by
    norm_num [calculate_all_clip_segments, plan_with_params, calcSegmentsAux,
      Config.CLIP_DURATION, Config.OVERLAP_DURATION, Config.MIN_CLIP_DURATION,
      Config.MAX_CLIPS_PER_VIDEO]
  exact ⟨by norm_num, hmem, (c2_window_durations 100 (by norm_num) _ hmem).2 rfl⟩

/-- Claim C3: the planner never returns more than `MAX_CLIPS_PER_VIDEO`
(100) windows, the final truncated window counted. -/
theorem c3_max_windows (total_duration : ℚ) (hd : 0 ≤ total_duration) :
    (calculate_all_clip_segments total_duration).length ≤
      Config.MAX_CLIPS_PER_VIDEO := by
  unfold calculate_all_clip_segments plan_with_params
  exact calcSegmentsAux_length_le Config.CLIP_DURATION Config.OVERLAP_DURATION
    Config.MIN_CLIP_DURATION total_duration Config.MAX_CLIPS_PER_VIDEO 0 0

/-- Witness for C3, instantiated at `total_duration = 100000`. -/
theorem c3_witness :
    (0:ℚ) ≤ 100000 ∧
    (calculate_all_clip_segments 100000).length ≤ Config.MAX_CLIPS_PER_VIDEO :=
  ⟨by norm_num, c3_max_windows 100000 (by norm_num)⟩

/-- Claim C10: a window is marked final only when its end was truncated to
`total_duration` with duration strictly below `CLIP_DURATION`; a window
whose end happens to equal `total_duration` with full duration is emitted
non-final. -/
theorem c10_final_flag (total_duration : ℚ) :
    ∀ seg ∈ calculate_all_clip_segments total_duration,
      (seg.is_final_clip = true →
        seg.end_time = total_duration ∧ seg.duration < Config.CLIP_DURATION) ∧
      (seg.end_time = total_duration → seg.duration = Config.CLIP_DURATION →
        seg.is_final_clip = false) := by
  intro seg h
  unfold calculate_all_clip_segments plan_with_params at h
  have h2 := calcSegmentsAux_mem_spec Config.CLIP_DURATION
    Config.OVERLAP_DURATION Config.MIN_CLIP_DURATION total_duration
    Config.MAX_CLIPS_PER_VIDEO 0 0 seg h
  refine ⟨fun hf => ⟨(h2.2 hf).1, (h2.2 hf).2.2.1⟩, fun he hdur => ?_⟩
  cases hf : seg.is_final_clip with
  | false => rfl
  | true =>
    exfalso
    have h3 := (h2.2 hf).2.2.1
    rw [hdur] at h3
    exact lt_irrefl _ h3

/-- Witness for C10, instantiated at `total_duration = 30`: the exact-fit
window `[0, 30)` ends at the video's end with full duration and is
non-final. -/
theorem c10_witness :
    (⟨0, 30, 30, 1, false⟩ : Segment) ∈ calculate_all_clip_segments 30 ∧
    (Segment.mk 0 30 30 1 false).is_final_clip = false := by
  have hmem : (⟨0, 30, 30, 1, false⟩ : Segment) ∈ calculate_all_clip_segments 30 := by
    norm_num [calculate_all_clip_segments, plan_with_params, calcSegmentsAux,
      Config.CLIP_DURATION, Config.OVERLAP_DURATION, Config.MIN_CLIP_DURATION,
      Config.MAX_CLIPS_PER_VIDEO]
  exact ⟨hmem, (c10_final_flag 30 _ hmem).2 rfl rfl⟩

/-- Modelled from the spec: the spec's SegmentPlanner contract demands that
`step = target_length - overlap` be positive and that the planner otherwise
fail with `ConfigurationError`; no such check or error type exists anywhere
in the source. -/
inductive PlanError where
  | ConfigurationError
deriving DecidableEq, Repr

/-- Modelled from the spec: a planner that validates the step before
delegating to the source's loop, for comparison with `plan_with_params`. -/
def plan_spec (clipDuration overlapDuration minClipDuration : ℚ)
    (maxClips : ℕ) (video_duration : ℚ) : Except PlanError (List Segment) :=
  if clipDuration - overlapDuration ≤ 0 then
    Except.error PlanError.ConfigurationError
  else
    Except.ok (plan_with_params clipDuration overlapDuration minClipDuration
      maxClips video_duration)

/-- Counterexample to C4: with `overlap = target_length = 30` (step `≤ 0`)
and a 40-second video, the spec-modelled planner fails with
`ConfigurationError`, yet the source's loop returns a plan — a full
`MAX_CLIPS_PER_VIDEO` windows, terminated only by the safety bound. -/
theorem c4_counterexample :
    Config.CLIP_DURATION - Config.CLIP_DURATION ≤ 0 ∧
    plan_spec Config.CLIP_DURATION Config.CLIP_DURATION Config.MIN_CLIP_DURATION
        Config.MAX_CLIPS_PER_VIDEO 40 =
      Except.error PlanError.ConfigurationError ∧
    (plan_with_params Config.CLIP_DURATION Config.CLIP_DURATION
        Config.MIN_CLIP_DURATION Config.MAX_CLIPS_PER_VIDEO 40).length =
      Config.MAX_CLIPS_PER_VIDEO := by
  refine ⟨by norm_num, by simp [plan_spec], ?_⟩
  unfold plan_with_params
  exact calcSegmentsAux_length_nonpos_step Config.CLIP_DURATION
    Config.CLIP_DURATION Config.MIN_CLIP_DURATION 40 (le_refl _)
    (by norm_num [Config.CLIP_DURATION]) (by norm_num [Config.CLIP_DURATION])
    Config.MAX_CLIPS_PER_VIDEO 0 0 (le_refl 0)

/-- Claim C4 (amended): the source performs no parameter validation and has
no failure path: when `step = clipDuration - overlapDuration ≤ 0` the
planner still returns a plan, terminating only through the `maxClips`
safety bound — with `0 < clipDuration ≤ video_duration` it returns exactly
`maxClips` windows. -/
theorem c4_amended (clipDuration overlapDuration minClipDuration : ℚ)
    (maxClips : ℕ) (video_duration : ℚ)
    (hstep : clipDuration - overlapDuration ≤ 0) (hpos : 0 < clipDuration)
    (hfits : clipDuration ≤ video_duration) :
    (plan_with_params clipDuration overlapDuration minClipDuration maxClips
        video_duration).length = maxClips := by
  unfold plan_with_params
  exact calcSegmentsAux_length_nonpos_step clipDuration overlapDuration
    minClipDuration video_duration (by linarith) hpos hfits maxClips 0 0
    (le_refl 0)

/-- Witness for C4 (amended) at `target = overlap = 30`, `min = 25`,
`max_windows = 100`, `total_duration = 40`. -/
theorem c4_witness :
    (30:ℚ) - 30 ≤ 0 ∧ (0:ℚ) < 30 ∧ (30:ℚ) ≤ 40 ∧
    (plan_with_params 30 30 25 100 40).length = 100 :=
  ⟨by norm_num, by norm_num, by norm_num,
    c4_amended 30 30 25 100 40 (by norm_num) (by norm_num) (by norm_num)⟩

/-- A clip dictionary appended to `created_clips` by
`create_all_30sec_clips` on a successful encode. The `path` and `filename`
string fields of the source dictionary are omitted: no claim concerns
them, and they are derived from collaborator state (the sanitized title),
not from the numeric plan. -/
structure CreatedClip where
  clip_number : ℕ
  start_time : ℚ
  end_time : ℚ
  duration : ℚ
  size_mb : ℚ
deriving DecidableEq, Repr

/-- Statistic `total_duration` computed by
`generate_comprehensive_report`: the sum of the duration entries of
`created_clips`. -/
def total_duration_generated (created_clips : List CreatedClip) : ℚ :=
  (created_clips.map CreatedClip.duration).sum

/-- Statistic `coverage_percentage = (total_duration / video_duration *
100) if video_duration > 0 else 0` computed by
`generate_comprehensive_report` (the report then stores it rounded to two
decimals for presentation). -/
def coverage_percentage (created_clips : List CreatedClip)
    (video_duration : ℚ) : ℚ :=
  if video_duration > 0 then
    total_duration_generated created_clips / video_duration * 100
  else 0

/-- Claim C5: for a non-empty artifact list the coverage figure is the sum
of the artifact durations divided by the source duration (scaled to a
percentage), and it is 0 when the source duration is 0 — no division by
zero occurs (in the `ℚ` model `x / 0 = 0`, so the closed form also holds
there). -/
theorem c5_coverage (created_clips : List CreatedClip) (video_duration : ℚ)
    (hne : created_clips ≠ []) (hd : 0 ≤ video_duration) :
    coverage_percentage created_clips video_duration =
      (created_clips.map CreatedClip.duration).sum / video_duration * 100 ∧
    (video_duration = 0 →
      coverage_percentage created_clips video_duration = 0) := by
  constructor
  · unfold coverage_percentage total_duration_generated
    split_ifs with h
    · rfl
    · rw [le_antisymm (not_lt.mp h) hd, div_zero, zero_mul]
  · intro h0
    simp [coverage_percentage, h0]

/-- Witness for C5 on a one-artifact list with `video_duration = 0`. -/
theorem c5_witness :
    ([⟨1, 0, 30, 30, 1⟩] : List CreatedClip) ≠ [] ∧ (0:ℚ) ≤ 0 ∧
    (coverage_percentage [⟨1, 0, 30, 30, 1⟩] 0 =
        (([⟨1, 0, 30, 30, 1⟩] : List CreatedClip).map
          CreatedClip.duration).sum / 0 * 100 ∧
      ((0:ℚ) = 0 → coverage_percentage [⟨1, 0, 30, 30, 1⟩] 0 = 0)) :=
  ⟨by simp, le_refl 0, c5_coverage [⟨1, 0, 30, 30, 1⟩] 0 (by simp) (le_refl 0)⟩

/-- Outcome of one external ffmpeg invocation as observed by
`_create_30sec_clip`: whether `subprocess.run` raised (`TimeoutExpired` or
any other exception), the process return code, whether the output file
exists afterwards, and its size in bytes. -/
structure EncodeOutcome where
  raised : Bool
  returncode : ℤ
  output_exists : Bool
  file_size : ℕ
deriving DecidableEq, Repr

/-- Validation logic of `_create_30sec_clip`: any exception or timeout
yields `False`; otherwise the call must have exited with code 0, the
output file must exist and must exceed 500000 bytes. -/
def clip_success (r : EncodeOutcome) : Bool :=
  if r.raised = true then false
  else if r.returncode = 0 ∧ r.output_exists = true then
    decide (r.file_size > 500000)
  else false

/-- The dictionary `create_all_30sec_clips` appends on success, built from
the segment and the measured output size. -/
def toCreatedClip (seg : Segment) (size_mb : ℚ) : CreatedClip :=
  { clip_number := seg.clip_number, start_time := seg.start_time,
    end_time := seg.end_time, duration := seg.duration, size_mb := size_mb }

/-- The `for` loop of `create_all_30sec_clips` over the planned segments:
the external world is an oracle giving each window's encode outcome and
output size; a failed window is skipped and iteration continues. -/
def create_all_30sec_clips (outcome : Segment → EncodeOutcome)
    (size_mb : Segment → ℚ) : List Segment → List CreatedClip
  | [] => []
  | seg :: rest =>
    if clip_success (outcome seg) then
      toCreatedClip seg (size_mb seg) ::
        create_all_30sec_clips outcome size_mb rest
    else
      create_all_30sec_clips outcome size_mb rest

/-- Claim C6: for every plan and every behaviour of the external encoder,
the batch yields exactly one artifact per successful window, in plan
order (it equals the plan filtered to successful windows, mapped to
artifacts, possibly empty), and the artifact count is the plan length
minus the number of failed windows — failures are skipped, never
propagated. -/
theorem c6_batch_skip (outcome : Segment → EncodeOutcome)
    (size_mb : Segment → ℚ) (plan : List Segment) :
    create_all_30sec_clips outcome size_mb plan =
      (plan.filter (fun seg => clip_success (outcome seg))).map
        (fun seg => toCreatedClip seg (size_mb seg)) ∧
    (create_all_30sec_clips outcome size_mb plan).length +
      (plan.filter (fun seg => ! clip_success (outcome seg))).length =
      plan.length := by
  constructor
  · induction plan with
    | nil => simp [create_all_30sec_clips]
    | cons seg rest ih =>
      by_cases h : clip_success (outcome seg) = true
      · simp [create_all_30sec_clips, h, List.filter_cons, ih]
      · simp [create_all_30sec_clips, h, List.filter_cons, ih]
  · induction plan with
    | nil => simp [create_all_30sec_clips]
    | cons seg rest ih =>
      by_cases h : clip_success (outcome seg) = true
      · simp [create_all_30sec_clips, h, List.filter_cons]
        omega
      · simp [create_all_30sec_clips, h, List.filter_cons]
        omega

/-- The audio post-filter chain built inline by `_create_30sec_clip` in
its ffmpeg command (the `-af` argument), as structured data: fade-in anchored
at the clip start, fade-out anchored at `duration - AUDIO_FADE_DURATION`,
band-limiting high-pass and low-pass cutoffs. The compressor and loudness
stages carry only constants and are not needed by any claim. -/
structure AudioFilterChain where
  fade_in_start : ℚ
  fade_in_duration : ℚ
  fade_out_start : ℚ
  fade_out_duration : ℚ
  highpass_hz : ℚ
  lowpass_hz : ℚ
deriving DecidableEq, Repr

/-- The per-window parameters `_create_30sec_clip` hands to the external
transcode call: seek offset `-ss`, clip length `-t`, and the audio filter
chain. -/
structure FfmpegArgs where
  seek_start : ℚ
  duration_t : ℚ
  audio_filters : AudioFilterChain
deriving DecidableEq, Repr

/-- Construction of the ffmpeg invocation in `_create_30sec_clip` for one
segment, following the command list built in the source. -/
def build_ffmpeg_args (seg : Segment) : FfmpegArgs :=
  { seek_start := seg.start_time,
    duration_t := seg.duration,
    audio_filters :=
      { fade_in_start := 0,
        fade_in_duration := Config.AUDIO_FADE_DURATION,
        fade_out_start := seg.duration - Config.AUDIO_FADE_DURATION,
        fade_out_duration := Config.AUDIO_FADE_DURATION,
        highpass_hz := 80,
        lowpass_hz := 12000 } }

/-- Claim C7: the fade-out of every window's audio filter chain is
anchored at that window's own duration minus the fade length, so a window
of strictly smaller duration gets a strictly earlier fade-out start. -/
theorem c7_fade_anchor :
    (∀ seg : Segment, (build_ffmpeg_args seg).audio_filters.fade_out_start =
      seg.duration - Config.AUDIO_FADE_DURATION) ∧
    (∀ s₁ s₂ : Segment, s₁.duration < s₂.duration →
      (build_ffmpeg_args s₁).audio_filters.fade_out_start <
        (build_ffmpeg_args s₂).audio_filters.fade_out_start) := by
  constructor
  · intro seg
    rfl
  · intro s₁ s₂ h
    simp only [build_ffmpeg_args]
    linarith

/-- Witness for C7: the truncated final window `[75, 100)` of the
100-second plan (duration 25) fades out earlier than a full 30-second
window. -/
theorem c7_witness :
    (Segment.mk 75 100 25 4 true).duration <
      (Segment.mk 0 30 30 1 false).duration ∧
    (build_ffmpeg_args ⟨75, 100, 25, 4, true⟩).audio_filters.fade_out_start <
      (build_ffmpeg_args ⟨0, 30, 30, 1, false⟩).audio_filters.fade_out_start :=
  ⟨by norm_num, c7_fade_anchor.2 ⟨75, 100, 25, 4, true⟩ ⟨0, 30, 30, 1, false⟩
    (by norm_num)⟩

/-- The module-level `progress_state` dictionary. -/
structure ProgressState where
  status : String
  message : String
  progress : ℤ
  total_clips : ℕ
  current_clip : ℕ
  error : Option String
deriving DecidableEq, Repr

/-- String constant for the initial `idle` phase. -/
def status_idle : String := "idle"

/-- String constant for the `downloading` phase. -/
def status_downloading : String := "downloading"

/-- String constant for the terminal `error` phase. -/
def status_error : String := "error"

/-- Message text published while the download step runs. -/
def msg_downloading : String := "Downloading YouTube video..."

/-- A sample exception text for the error path. -/
def msg_boom : String := "boom"

/-- Initial value of `progress_state` at module load. -/
def initial_progress_state : ProgressState :=
  { status := "idle", message := "", progress := 0, total_clips := 0,
    current_clip := 0, error := none }

/-- Function `update_progress(status, message, progress=0, total_clips=0,
current_clip=0)`: one `progress_state.update({...})` call supplying every
key, `error` included (reset to `None`). -/
def update_progress (s : ProgressState) (status message : String)
    (progress : ℤ) (total_clips current_clip : ℕ) : ProgressState :=
  { s with
    status := status
    message := message
    progress := progress
    total_clips := total_clips
    current_clip := current_clip
    error := none }

/-- The `except` handler at the end of `generate_shorts`: it assigns the
status key of `progress_state` to the error phase string and the error key
to the stringified exception — only these two keys are assigned. -/
def generate_shorts_error_patch (s : ProgressState) (e : String) :
    ProgressState :=
  { s with status := "error", error := some e }

/-- Counterexample to C8: after the `downloading` milestone, the API error
handler patches only `status` and `error`, leaving the milestone's
`message` and `progress` in place — a reader observes `status = "error"`
mixed with the old milestone — and its result depends on the prior state,
so it is not a full overwrite. -/
theorem c8_counterexample :
    (generate_shorts_error_patch
        (update_progress initial_progress_state status_downloading
          msg_downloading 10 0 0) msg_boom).status = status_error ∧
    (generate_shorts_error_patch
        (update_progress initial_progress_state status_downloading
          msg_downloading 10 0 0) msg_boom).message = msg_downloading ∧
    (generate_shorts_error_patch
        (update_progress initial_progress_state status_downloading
          msg_downloading 10 0 0) msg_boom).progress = 10 ∧
    generate_shorts_error_patch
        (update_progress initial_progress_state status_downloading
          msg_downloading 10 0 0) msg_boom ≠
      generate_shorts_error_patch initial_progress_state msg_boom := by
  refine ⟨rfl, rfl, rfl, ?_⟩
  simp [generate_shorts_error_patch, update_progress, initial_progress_state,
    msg_downloading]

/-- Claim C8 (amended): `update_progress` fully overwrites every field of
the progress record (its result is independent of the prior state), but
the error handler of `generate_shorts` patches only `status` and `error`,
preserving the previous milestone's `message`, `progress`, `total_clips`
and `current_clip`. -/
theorem c8_amended :
    (∀ (s s' : ProgressState) (status message : String) (progress : ℤ)
        (total_clips current_clip : ℕ),
      update_progress s status message progress total_clips current_clip =
        update_progress s' status message progress total_clips current_clip) ∧
    (∀ (s : ProgressState) (e : String),
      (generate_shorts_error_patch s e).status = status_error ∧
      (generate_shorts_error_patch s e).error = some e ∧
      (generate_shorts_error_patch s e).message = s.message ∧
      (generate_shorts_error_patch s e).progress = s.progress ∧
      (generate_shorts_error_patch s e).total_clips = s.total_clips ∧
      (generate_shorts_error_patch s e).current_clip = s.current_clip) :=
  ⟨fun _ _ _ _ _ _ _ => rfl,
    fun _ _ => ⟨rfl, rfl, rfl, rfl, rfl, rfl⟩⟩

/-- Python `int()` applied to a nonnegative or negative rational:
truncation toward zero. -/
def py_int (q : ℚ) : ℤ := if 0 ≤ q then ⌊q⌋ else ⌈q⌉

/-- The pre-encoding estimate computed inline in `generate_shorts`:
`expected_clips = min(int(video_duration / step_size) + 1,
Config.MAX_CLIPS_PER_VIDEO)` with
`step_size = Config.CLIP_DURATION - Config.OVERLAP_DURATION`. -/
def expected_clips (video_duration : ℚ) : ℤ :=
  min (py_int (video_duration /
        (Config.CLIP_DURATION - Config.OVERLAP_DURATION)) + 1)
    (Config.MAX_CLIPS_PER_VIDEO : ℤ)

/-- Claim C9: at `total_duration = 40` the pre-encoding estimate is 2 while
the planner returns a single window (the final short window `[25, 40)` of
duration 15 is discarded), so the estimate diverges from the plan. -/
theorem c9_estimate_divergence :
    expected_clips 40 = 2 ∧
    ((calculate_all_clip_segments 40).length : ℤ) = 1 ∧
    expected_clips 40 ≠ ((calculate_all_clip_segments 40).length : ℤ) := by
  have harg : (40:ℚ) / (Config.CLIP_DURATION - Config.OVERLAP_DURATION) =
      8/5 := by
    norm_num [Config.CLIP_DURATION, Config.OVERLAP_DURATION]
  have hfloor : ⌊(8:ℚ)/5⌋ = 1 := Int.floor_eq_iff.mpr (by norm_num)
  have h1 : expected_clips 40 = 2 := by
    unfold expected_clips py_int
    rw [harg, if_pos (by norm_num : (0:ℚ) ≤ 8/5), hfloor]
    norm_num [Config.MAX_CLIPS_PER_VIDEO]
  have h2 : calculate_all_clip_segments 40 = [⟨0, 30, 30, 1, false⟩] := by
    norm_num [calculate_all_clip_segments, plan_with_params, calcSegmentsAux,
      Config.CLIP_DURATION, Config.OVERLAP_DURATION, Config.MIN_CLIP_DURATION,
      Config.MAX_CLIPS_PER_VIDEO]
  refine ⟨h1, by rw [h2]; rfl, ?_⟩
  rw [h1, h2]
  norm_num

end ShortsGen
